import Mathlib

/-!
Shallow embedding of the sensor acquisition and GPS geo-referencing core of
the HTPP-UI repository (file src/sensors.py), together with theorems that
settle the frozen claims about it.

Modelling conventions, matching the Python source:
* numpy NaN ("missing") is modelled by `Option ℚ` (`none` = NaN); arithmetic
  on such values propagates `none` exactly as float arithmetic propagates NaN.
* Serial byte/line input is modelled as finite lists of already-decoded line
  or byte outcomes: a `none` line stands for a `readline`/`decode`/NMEA-parse
  call that raised, and each comma-separated token is modelled after Python's
  `float()` as `Option ℚ` (`none` = unparsable token).  Token counts are the
  counts of the split string, so malformed-token lines keep their length.
* Python exceptions that escape a function are modelled with `Except String`;
  the string names the Python exception.  Exceptions caught inside a function
  (per-sample `try`/`except`) never surface, exactly as in the source.
* Transcendental float functions (`math.cos`, `math.sin`, `math.sqrt`,
  `math.atan2`, `math.pi`) are abstracted by a `MathOracle` record of
  functions on ℚ, so every definition stays executable; no settled claim
  depends on a particular value of these functions.  `time.time()` is passed
  in explicitly as `tNow`.
* Division: Python raises `ZeroDivisionError` on float division by zero; the
  embedding checks the divisor explicitly where the source divides.  (numpy
  vectorised division instead yields inf/nan; no settled claim divides by
  zero inside a numpy expression, and the model treats that case as missing.)
-/

/-- Missing-capable measurement value: `none` models numpy/float NaN. -/
abbrev Val : Type := Option ℚ

/-- NaN-propagating subtraction on `Val`. -/
def subV (a b : Val) : Val :=
  match a, b with
  | some x, some y => some (x - y)
  | _, _ => none

/-- NaN-propagating addition on `Val`. -/
def addV (a b : Val) : Val :=
  match a, b with
  | some x, some y => some (x + y)
  | _, _ => none

/-- NaN-propagating multiplication on `Val`. -/
def mulV (a b : Val) : Val :=
  match a, b with
  | some x, some y => some (x * y)
  | _, _ => none

/-- NaN-propagating division on `Val` (numpy semantics; zero divisor treated
as missing, a case no settled claim exercises). -/
def divV (a b : Val) : Val :=
  match a, b with
  | some x, some y => if y = 0 then none else some (x / y)
  | _, _ => none

/-- Mean of the non-missing entries of a column, `none` when all entries are
missing: the model of `np.nanmean` over one column (nanmean of an empty
slice is NaN). -/
def nanmeanCol (col : List Val) : Val :=
  let xs := col.filterMap id
  if xs.length = 0 then none else some (xs.sum / xs.length)

/-- Model of `np.nanmean(values, axis=0)` for a row-major matrix whose rows
have width `w`: one nan-mean per column. -/
def nanmeanAxis0 (w : Nat) (rows : List (List Val)) : List Val :=
  (List.range w).map (fun j => nanmeanCol (rows.map (fun r => r.getD j none)))

/-- One multispectral/environmental line outcome: `none` when
`device.readline().strip().decode()` raised, otherwise the comma-split
tokens, each token given as Python's `float()` result (`none` = unparsable). -/
abbrev TextLine : Type := Option (List Val)

/-- Row of the multispectral `values` matrix built for one line, after the
vectorised CI assignment `values[:, 0] = (values[:, 7] / values[:, 6]) - 1`:
a valid 8-token line fills columns 1..8 with its tokens and column 0 with the
per-row CI; a raised read or a wrong token count leaves the row all-NaN
(whence its CI entry NaN/NaN - 1 is NaN as well). -/
def rowOf (line : TextLine) : List Val :=
  match line with
  | some ts =>
      if ts.length = 8 then
        subV (divV (ts.getD 6 none) (ts.getD 5 none)) (some 1) :: ts
      else List.replicate 9 none
  | none => List.replicate 9 none

/-- Model of `getMultispectralReading(device, numValues, is_new_model=True)`:
the stream provides exactly `numValues` line outcomes; the result is the
column-wise nan-mean of the 9-column values matrix. -/
def getMultispectralReading (lines : List TextLine) : List Val :=
  nanmeanAxis0 9 (lines.map rowOf)

/-- Row of the environmental `values` matrix for one line: lines of exactly 8
tokens keep their first 6 tokens, everything else stays all-NaN
(`getEnvironmentalReading` prints and skips raised reads). -/
def rowOfEnv (line : TextLine) : List Val :=
  match line with
  | some ts => if ts.length = 8 then (ts.take 6).map id else List.replicate 6 none
  | none => List.replicate 6 none

/-- Model of `getEnvironmentalReading(device, numValues)`. -/
def getEnvironmentalReading (lines : List TextLine) : List Val :=
  nanmeanAxis0 6 (lines.map rowOfEnv)

/-- Python `int()` on the 5-byte ultrasonic payload: succeeds only when all
five characters are decimal digits (the model of the decodable frames the
claims exercise). -/
def parseNat5 (cs : List Char) : Option Nat :=
  if cs.all (fun c => c.isDigit) then
    some (cs.foldl (fun acc c => acc * 10 + (c.toNat - 48)) 0)
  else none

/-- The loop body of `getUltrasonicReading`: one character per `device.read()`
call; carriage return terminates a frame whose payload is the current 5-slot
`charList` (stale slots persist between frames, as in the source); a payload
that `int()` cannot parse raises `ValueError`, which the single surrounding
`try` of the source turns into an abort of the whole reading.  An exhausted
stream simply stops (the physical device would block instead, a case outside
the settled claims). -/
def ultraLoop (numValues : Nat) :
    List Char → List Val → List Char → Nat → Nat → Except String (List Val)
  | [], values, _, _, _ => .ok values
  | c :: rest, values, charList, index, count =>
    if count < numValues then
      if c = '\r' then
        match parseNat5 charList with
        | none => .error "ValueError"
        | some n =>
            let measurement : ℚ := (7 / 800) * ((n : ℚ) - 153 / 10)
            let values2 := if 0 ≤ measurement then values.set count (some measurement) else values
            ultraLoop numValues rest values2 charList 0 (count + 1)
      else
        let charList2 := charList.set index c
        let index2 := if index + 1 ≥ 5 then 0 else index + 1
        ultraLoop numValues rest values charList2 index2 count
    else .ok values

/-- Model of `getUltrasonicReading(device, numValues)`: a `ValueError` inside
the loop is caught by the single outer `except`, which prints and returns
`np.array([np.nan])`. -/
def getUltrasonicReading (numValues : Nat) (stream : List Char) : List Val :=
  match ultraLoop numValues stream (List.replicate numValues none)
      (List.replicate 5 '0') 0 0 with
  | .ok values => [nanmeanCol values]
  | .error _ => [none]

/-- One GPS line outcome: `none` when `readline`/`decode`/`pynmea2.parse`
raised, otherwise the raw message text together with the parsed longitude and
latitude in degrees. -/
abbrev GPSLine : Type := Option (String × ℚ × ℚ)

/-- The `while count < numValues` loop of `getGPSReading`, including the
off-by-one of the source: `count` is incremented *before* the write
`values[count, :] = fix`, so accepted fix number k lands in row k (row 0 is
never written) and the write for fix number `numValues` raises `IndexError`,
which the surrounding `except` swallows (`List.set` out of range is likewise
a no-op).  An exhausted stream stops the model (the source would spin on the
device instead). -/
def gpsLoop (numValues : Nat) :
    List GPSLine → List (Val × Val) → Nat → List (Val × Val)
  | [], values, _ => values
  | l :: rest, values, count =>
    if count < numValues then
      match l with
      | none => gpsLoop numValues rest values count
      | some (msg, lon, lat) =>
          if msg.take 6 = "$GPGGA" then
            let count2 := count + 1
            if lon ≠ 0 ∨ lat ≠ 0 then
              gpsLoop numValues rest (values.set count2 (some lon, some lat)) count2
            else gpsLoop numValues rest values count2
          else gpsLoop numValues rest values count
    else values

/-- Model of `getGPSReading(device, numValues=2)`: the per-column nan-mean of
the `(numValues, 2)` matrix filled by `gpsLoop`. -/
def getGPSReading (numValues : Nat) (lines : List GPSLine) : List Val :=
  let values := gpsLoop numValues lines (List.replicate numValues (none, none)) 0
  [nanmeanCol (values.map Prod.fst), nanmeanCol (values.map Prod.snd)]

/-- The `variables` dictionary of the source: the declared field names per
sensor kind (first character of a label).  (`variables` itself is a reserved
command name in Lean, hence the `Dict` suffix.) -/
def variablesDict (kind : Char) : List String :=
  if kind = 'm' then
    ["CI", "NDRE", "NDVI", "proxy Distance", "proxy LAI", "proxy CCC",
     "Red-Edge", "NIR", "Red"]
  else if kind = 'u' then ["Distance"]
  else if kind = 'g' then
    ["Longitude", "Latitude", "GPS_X", "GPS_Y", "Vehicle_X", "Vehicle_Y",
     "Heading", "Velocity", "Time"]
  else if kind = 'e' then
    ["Canopy Temperature", "Air Temperature", "Humidity", "Reflected PAR",
     "Incident PAR", "Pressure"]
  else []

example : (getMultispectralReading [some [some 0, some 0, some 0, some 0, some 0, some 1, some 2, some 0], some [some 0, some 0, some 0, some 0, some 0, some 2, some 2, some 0]]).getD 0 none = some (1/2) := by
  with_unfolding_all rfl

example : getGPSReading 2 [some ("$GPGGA,x", 1, 1), some ("$GPGGA,x", 3, 5)] = [some 1, some 1] := by
  with_unfolding_all rfl

set_option maxRecDepth 4000 in
example : getUltrasonicReading 3 ("ABCDE\r00100\r00115\r00120\r".toList) = [none] := by
  with_unfolding_all rfl

set_option maxRecDepth 4000 in
example : getUltrasonicReading 3 ("00100\r00115\r00120\r".toList) = [some (20237/24000)] := by
  with_unfolding_all rfl

/-- Abstraction of the transcendental float functions used by the source
(`math.cos`, `math.sin`, `math.sqrt`, `math.atan2`, `math.pi`), so the
embedding stays executable over ℚ.  No settled claim depends on particular
values of these functions. -/
structure MathOracle where
  cos : ℚ → ℚ
  sin : ℚ → ℚ
  sqrt : ℚ → ℚ
  atan2 : ℚ → ℚ → ℚ
  pi : ℚ

/-- NaN-propagating lift of `math.cos`. -/
def cosV (O : MathOracle) (v : Val) : Val := v.map O.cos

/-- NaN-propagating lift of `math.sin`. -/
def sinV (O : MathOracle) (v : Val) : Val := v.map O.sin

/-- NaN-propagating lift of `math.sqrt` (on NaN, `math.sqrt` returns NaN). -/
def sqrtV (O : MathOracle) (v : Val) : Val := v.map O.sqrt

/-- NaN-propagating lift of `math.atan2 y x`. -/
def atan2V (O : MathOracle) (y x : Val) : Val :=
  match y, x with
  | some a, some b => some (O.atan2 a b)
  | _, _ => none

/-- Division of a possibly-missing value by a scalar whose source counterpart
is never zero (the literals 180 and 100, `math.pi`, and the oracle value `c`
of `setupGPSProjection`): modelled with Lean's total division. -/
def scaleDiv (v : Val) (c : ℚ) : Val := v.map (fun x => x / c)

/-- Python float division `a / b` where the divisor is genuinely
data-dependent: raises `ZeroDivisionError` whenever the divisor is exactly
zero (even with a NaN dividend), and propagates NaN otherwise. -/
def divVexc (a b : Val) : Except String Val :=
  match b with
  | some y =>
      if y = 0 then .error "ZeroDivisionError"
      else match a with
        | some x => .ok (some (x / y))
        | none => .ok none
  | none => .ok none

/-- The projection constants produced by `setupGPSProjection`, the source
list `[origin_time, origin_longitude, origin_latitude, F_lon, F_lat]`. -/
structure Frame where
  origin_time : ℚ
  origin_longitude : ℚ
  origin_latitude : ℚ
  F_lon : ℚ
  F_lat : ℚ
deriving DecidableEq

/-- Model of `setupGPSProjection(reading)`: computes the projection frame
from one clean (no-NaN) GPS fix in degrees; `time.time()` is the explicit
`tNow`.  The divisions by `c` use total division (`c` is the value of
`math.sqrt` on a positive argument in the source, hence never zero there). -/
def setupGPSProjection (O : MathOracle) (tNow : ℚ) (reading : ℚ × ℚ) : Frame :=
  let origin_longitude := O.pi * reading.1 / 180
  let origin_latitude := O.pi * reading.2 / 180
  let a : ℚ := 6378137
  let b : ℚ := 6356752.3142
  let hElev : ℚ := 20
  let c := O.sqrt ((a * O.cos origin_latitude) ^ 2 + (b * O.sin origin_latitude) ^ 2)
  { origin_time := tNow
    origin_longitude := origin_longitude
    origin_latitude := origin_latitude
    F_lon := O.cos origin_latitude * (a ^ 2 / c + hElev)
    F_lat := (a * b) ^ 2 / c ^ 3 + hElev }

/-- The planar x coordinate computed inside `processGPS`:
`gps_x = (math.pi * someValue[0] / 180 - origin_longitude) * F_lon`. -/
def gpsX (O : MathOracle) (f : Frame) (v0 : Val) : Val :=
  mulV (subV (scaleDiv (mulV (some O.pi) v0) 180) (some f.origin_longitude)) (some f.F_lon)

/-- The planar y coordinate computed inside `processGPS`:
`gps_y = (math.pi * someValue[1] / 180 - origin_latitude) * F_lat`. -/
def gpsY (O : MathOracle) (f : Frame) (v1 : Val) : Val :=
  mulV (subV (scaleDiv (mulV (some O.pi) v1) 180) (some f.origin_latitude)) (some f.F_lat)

/-- The wx configuration store as seen by the core: keyed float entries;
`HasEntry` is key membership and `ReadFloat` the stored value. -/
abbrev Config : Type := List (String × ℚ)

/-- Model of `cfg.HasEntry(key)`. -/
def hasEntry (cfg : Config) (key : String) : Bool := (List.lookup key cfg).isSome

/-- Model of `cfg.ReadFloat(key)` (only called after `HasEntry` succeeded). -/
def readFloat (cfg : Config) (key : String) : ℚ := (List.lookup key cfg).getD 0

/-- First character of a label (`label[0]`), the sensor-kind dispatch key. -/
def labelKind (label : String) : Char := label.toList.headD ' '

/-- Second character of a label (`label[1]`), the side key used by
`processGPS`. -/
def labelSide (label : String) : Char := (label.toList.drop 1).headD ' '

/-- Model of `processGPS(someValue, label, GPS_constants,
previous_measurements, num_readings, cfg)`.  `Except.error` models a Python
exception escaping the function (`TypeError` when `GPS_constants` or
`someValue` is `None`, `IndexError` on a short value vector, `KeyError` on a
missing previous measurement, `ZeroDivisionError` on zero elapsed time);
`.ok none` models the `return None` taken when the side's offsets are not
configured; `.ok (some _)` is the augmented 9-field reading. -/
def processGPS (O : MathOracle) (tNow : ℚ) (someValue : Option (List Val)) (label : String)
    (GPS_constants : Option Frame) (previous_measurements : List (String × Val))
    (num_readings : Nat) (cfg : Config) : Except String (Option (List Val)) := do
  let consts ← match GPS_constants with
    | none => Except.error "TypeError: NoneType is not subscriptable"
    | some f => Except.ok f
  let v ← match someValue with
    | none => Except.error "TypeError: NoneType is not subscriptable"
    | some v => Except.ok v
  let v0 ← match v.get? 0 with
    | none => Except.error "IndexError: index out of bounds"
    | some x => Except.ok x
  let v1 ← match v.get? 1 with
    | none => Except.error "IndexError: index out of bounds"
    | some x => Except.ok x
  let new_time : ℚ := tNow - consts.origin_time
  let gps_x := gpsX O consts v0
  let gps_y := gpsY O consts v1
  let old ← if num_readings = 0 then
      Except.ok ((some 0 : Val), (some 0 : Val), (some 0 : Val))
    else
      match List.lookup (label ++ "/Time") previous_measurements,
          List.lookup (label ++ "/GPS_X") previous_measurements,
          List.lookup (label ++ "/GPS_Y") previous_measurements with
      | some t, some x, some y => Except.ok (t, x, y)
      | _, _, _ => Except.error "KeyError"
  let old_time := old.1
  let old_x := old.2.1
  let old_y := old.2.2
  let heading_radians := atan2V O (subV gps_y old_y) (subV gps_x old_x)
  let velocity ← divVexc
    (sqrtV O (addV (mulV (subV gps_x old_x) (subV gps_x old_x))
      (mulV (subV gps_y old_y) (subV gps_y old_y))))
    (subV (some new_time) old_time)
  let heading := scaleDiv (mulV (some 180) heading_radians) O.pi
  if labelSide label = 'L' ∧ hasEntry cfg "DGLX" ∧ hasEntry cfg "DGLY" then
    let dgx := readFloat cfg "DGLX" / 100
    let dgy := readFloat cfg "DGLY" / 100
    let vehicle_x := subV (addV gps_x (mulV (some dgx) (sinV O heading_radians)))
      (mulV (some dgy) (cosV O heading_radians))
    let vehicle_y := subV (subV gps_y (mulV (some dgx) (cosV O heading_radians)))
      (mulV (some dgy) (sinV O heading_radians))
    return some [v0, v1, gps_x, gps_y, vehicle_x, vehicle_y, heading, velocity, some new_time]
  else if labelSide label = 'R' ∧ hasEntry cfg "DGRX" ∧ hasEntry cfg "DGRY" then
    let dgx := readFloat cfg "DGRX" / 100
    let dgy := readFloat cfg "DGRY" / 100
    let vehicle_x := subV (subV gps_x (mulV (some dgx) (sinV O heading_radians)))
      (mulV (some dgy) (cosV O heading_radians))
    let vehicle_y := subV (addV gps_y (mulV (some dgx) (cosV O heading_radians)))
      (mulV (some dgy) (sinV O heading_radians))
    return some [v0, v1, gps_x, gps_y, vehicle_x, vehicle_y, heading, velocity, some new_time]
  else
    return none

/-- Model of a `SerialSensor` instance.  `hasDevice`/`hasThread` record
whether `self.device`/`self.thread` are non-`None`; `value` is the latest
reading stored by the background loop (`None` until the loop first runs). -/
structure SerialSensor where
  port : String
  label : String
  baudrate : Nat
  value : Option (List Val)
  is_connected : Bool
  hasDevice : Bool
  hasThread : Bool
deriving DecidableEq

/-- Model of `SerialSensor.__init__(port, label, baudrate=38400)`. -/
def mkSerialSensor (port label : String) (baudrate : Nat := 38400) : SerialSensor :=
  { port := port, label := label, baudrate := baudrate, value := none,
    is_connected := false, hasDevice := false, hasThread := false }

/-- The parameters `SerialSensor.open` passes to
`serial.Serial(self.port, self.baudrate, timeout=1)`:
(port name, baud rate, read timeout in seconds). -/
def openSerialArgs (s : SerialSensor) : String × Nat × Nat :=
  (s.port, s.baudrate, 1)

/-- Model of `SerialSensor.open()` (`open` is a Lean keyword, hence
`openStep`).  `acquireOk` is whether the `serial.Serial` acquisition would
succeed for this port in this call.  Returns the updated sensor and the
Python return value: `some true` on success, `some false` on failure (the
`except` branch nulls out device and thread), `none` (Python `None`) when
already connected. -/
def SerialSensor.openStep (s : SerialSensor) (acquireOk : Bool) : SerialSensor × Option Bool :=
  if s.is_connected = false then
    if acquireOk then
      ({ s with is_connected := true, hasDevice := true, hasThread := true }, some true)
    else
      ({ s with hasDevice := false, hasThread := false }, some false)
  else (s, none)

/-- Model of `SerialSensor.close()`: joins and drops the thread, closes and
drops the device, clears the connected flag; a no-op when not connected. -/
def SerialSensor.close (s : SerialSensor) : SerialSensor :=
  if s.is_connected then
    { s with is_connected := false, hasDevice := false, hasThread := false }
  else s

/-- Model of `SerialSensor.read()`: the latest stored reading when connected,
Python `None` otherwise. -/
def SerialSensor.read (s : SerialSensor) : Option (List Val) :=
  if s.is_connected then s.value else none

/-- The spec's Closed state for a connection: connected flag false, serial
handle and reader both null. -/
def ClosedState (s : SerialSensor) : Prop :=
  s.is_connected = false ∧ s.hasDevice = false ∧ s.hasThread = false

/-- The state `SerialSensor.open()` leaves a sensor in on success. -/
def OpenState (s : SerialSensor) : Prop :=
  s.is_connected = true ∧ s.hasDevice = true ∧ s.hasThread = true

/-- The `for i, label in enumerate(labels)` loop of `SensorHandler.openAll`,
over the registered sensors in insertion order.  `oks` lists, per position,
whether the serial acquisition would succeed in this call; `fixes` lists,
per position, whether that sensor's background loop would eventually store a
NaN-free GPS fix.  Right after `open()` — inside the same `try`, before the
`if not success: break` check, and regardless of open's result — the source
calls `setupGPS(label)` for every GPS-kind label.  `setupGPS`'s `while True`
first-fix loop repeats `read(label, 0, None)`, which yields the sensor's
latest value when connected and Python `None` otherwise, and exits only on a
NaN-free reading: on a sensor whose open failed (or for a connected sensor
that never stores a clean fix) it spins forever and `openAll` never returns.
That nontermination is the `none` result of this model.  A terminating
`setupGPS` only stores projection constants and refreshes the
previous-measurements copy; it changes no connection state (all this model
tracks) and raises nothing.  The loop otherwise returns `some` of the
updated sensors together with `some k` when it hit `break` at index `k`
(open returned `False`, raised, or returned `None` because the sensor was
already connected), or with `none` when it ran to completion. -/
def openLoopAux : List SerialSensor → List Bool → List Bool →
    Option (List SerialSensor × Option Nat)
  | [], _, _ => some ([], none)
  | s :: rest, oks, fixes =>
    match s.openStep (oks.headD false) with
    | (s2, some true) =>
        if labelKind s2.label = 'g' ∧ fixes.headD false = false then none
        else
          match openLoopAux rest oks.tail fixes.tail with
          | none => none
          | some (rest2, none) => some (s2 :: rest2, none)
          | some (rest2, some k) => some (s2 :: rest2, some (k + 1))
    | (s2, some false) =>
        if labelKind s2.label = 'g' then none
        else some (s2 :: rest, some 0)
    | (s2, none) =>
        if labelKind s2.label = 'g' ∧ fixes.headD false = false then none
        else some (s2 :: rest, some 0)

/-- The rollback loop `for j in range(i): self.sensors[labels[j]].close()`:
closes the first `i` sensors. -/
def closeUpTo : List SerialSensor → Nat → List SerialSensor
  | l, 0 => l
  | [], _ + 1 => []
  | s :: rest, i + 1 => s.close :: closeUpTo rest i

/-- Model of `SensorHandler.openAll()` on the ordered fleet of registered
sensors.  The outer `none` models nontermination inside a `setupGPS`
first-fix loop (see `openLoopAux`).  On an empty fleet the source evaluates
`labels[-1]` on an empty list, raising `IndexError`.  Otherwise it runs the
open loop and, when that returns, checks only whether the *last* registered
sensor is connected: if so it returns `True`; if not, it closes the first
`i` sensors (the loop's break index, or the last index when the loop
completed) and returns `False`. -/
def openAll (fleet : List SerialSensor) (oks fixes : List Bool) :
    Option (Except String (List SerialSensor × Bool)) :=
  match fleet with
  | [] => some (.error "IndexError: list index out of range")
  | _ :: _ =>
    match openLoopAux fleet oks fixes with
    | none => none
    | some r =>
        if (r.1.getLastD (mkSerialSensor "" "")).is_connected then some (.ok (r.1, true))
        else
          let i := match r.2 with
            | some k => k
            | none => fleet.length - 1
          some (.ok (closeUpTo r.1 i, false))

/-- No-divergence side condition for `openAll` on a fleet: every GPS-kind
connection would both open successfully and eventually obtain a NaN-free
first fix, so no `setupGPS` call in the loop can spin forever. -/
def gpsOkay : List SerialSensor → List Bool → List Bool → Bool
  | [], _, _ => true
  | s :: rest, oks, fixes =>
      (!(labelKind s.label == 'g') || (oks.headD false && fixes.headD false)) &&
        gpsOkay rest oks.tail fixes.tail

/-- Model of `SensorHandler.closeAll()`: closes every sensor. -/
def closeAllFleet (fleet : List SerialSensor) : List SerialSensor :=
  fleet.map SerialSensor.close

/-- Ordered-dictionary update, as Python dict assignment `m[k] = v`: replaces
in place when the key exists, appends otherwise. -/
def setKey : List (String × Val) → String → Val → List (String × Val)
  | [], k, v => [(k, v)]
  | p :: rest, k, v =>
      if p.1 = k then (k, v) :: rest else p :: setKey rest k v

/-- Ordered-dictionary update for the sensors mapping. -/
def setSensorKey : List (String × SerialSensor) → String → SerialSensor → List (String × SerialSensor)
  | [], k, v => [(k, v)]
  | p :: rest, k, v =>
      if p.1 = k then (k, v) :: rest else p :: setSensorKey rest k v

/-- Model of a `SensorHandler` instance (the attribute the class docstring
calls `current_measurements` is named `measurements` in the code). -/
structure SensorHandler where
  sensors : List (String × SerialSensor)
  measurements : List (String × Val)
  previous_measurements : List (String × Val)
  GPS_constants : Option Frame
deriving DecidableEq

/-- Model of `SensorHandler.__init__`. -/
def emptyHandler : SensorHandler :=
  { sensors := [], measurements := [], previous_measurements := [], GPS_constants := none }

/-- Model of `SensorHandler.add(port, label)`: registers
`SerialSensor(port, label)` — with the constructor's default baud rate —
under `label`. -/
def SensorHandler.add (h : SensorHandler) (port label : String) : SensorHandler :=
  { h with sensors := setSensorKey h.sensors label (mkSerialSensor port label) }

/-- Model of `SensorHandler.hasLabel(label)`. -/
def SensorHandler.hasLabel (h : SensorHandler) (label : String) : Bool :=
  (List.lookup label h.sensors).isSome

/-- The update loop
`for i, variable_name in enumerate(variables[label[0]]): ...` of
`SensorHandler.read`: writes `measurements[label + "/" + name] = reading[i]`
for each declared field name; indexing past the end of the reading vector
raises `IndexError`. -/
def assignFields (label : String) : List String → Nat → List Val → List (String × Val) →
    Except String (List (String × Val))
  | [], _, _, m => .ok m
  | name :: names, i, vals, m =>
    match vals.get? i with
    | none => Except.error "IndexError: index out of bounds"
    | some v => assignFields label names (i + 1) vals (setKey m (label ++ "/" ++ name) v)

/-- Model of `SensorHandler.read(label, num_readings, cfg)`.  The first
statement is `self.previous_measurements = self.measurements.copy()` — the
snapshot is retaken on *every* per-label call.  For a registered non-GPS
label the latest reading is written field-by-field into `measurements`
(subscribing a `None` reading raises `TypeError`).  For a GPS label with a
config, the reading is passed through `processGPS` and the result written
likewise (`reading[i]` on the `None` returned for unconfigured offsets
raises `TypeError`).  An unregistered label returns Python `None`. -/
def SensorHandler.read (O : MathOracle) (tNow : ℚ) (h : SensorHandler) (label : String)
    (num_readings : Nat) (cfg : Option Config) :
    Except String (SensorHandler × Option (List Val)) :=
  let h1 := { h with previous_measurements := h.measurements }
  match List.lookup label h1.sensors with
  | some sensor =>
      let reading := sensor.read
      if labelKind label = 'g' then
        match cfg with
        | some c =>
          match processGPS O tNow reading label h1.GPS_constants h1.previous_measurements
              num_readings c with
          | .error e => .error e
          | .ok none => .error "TypeError: NoneType is not subscriptable"
          | .ok (some vals) =>
            match assignFields label (variablesDict 'g') 0 vals h1.measurements with
            | .error e => .error e
            | .ok m2 => .ok ({ h1 with measurements := m2 }, some vals)
        | none => .ok (h1, reading)
      else
        match reading with
        | none => .error "TypeError: NoneType is not subscriptable"
        | some vals =>
          match assignFields label (variablesDict (labelKind label)) 0 vals h1.measurements with
          | .error e => .error e
          | .ok m2 => .ok ({ h1 with measurements := m2 }, some vals)
  | none => .ok (h1, none)

/-- One fleet read cycle: `SensorHandler.read` invoked once per registered
label, in order, as the surrounding application's acquisition tick does
(the spec's `readCycle`). -/
def readCycle (O : MathOracle) (tNow : ℚ) (h : SensorHandler) (labels : List String)
    (num_readings : Nat) (cfg : Option Config) : Except String SensorHandler :=
  match labels with
  | [] => .ok h
  | lab :: rest =>
    match SensorHandler.read O tNow h lab num_readings cfg with
    | .error e => .error e
    | .ok (h2, _) => readCycle O tNow h2 rest num_readings cfg

/-- A concrete oracle for evaluating the model at specific inputs; every
settled fact about control flow holds for any oracle. -/
def dummyO : MathOracle :=
  { cos := fun _ => 1, sin := fun _ => 0, sqrt := fun _ => 1,
    atan2 := fun _ _ => 0, pi := 3 }

/-- A concrete projection frame with origin time 5. -/
def frame1 : Frame :=
  { origin_time := 5, origin_longitude := 0, origin_latitude := 0, F_lon := 1, F_lat := 1 }

/-- A connected ultrasonic sensor whose background loop has not yet stored a
reading (`value` is `None`). -/
def sensorNoValue : SerialSensor :=
  { mkSerialSensor "COM4" "uL1" with
      is_connected := true
      hasDevice := true
      hasThread := true }

/-- Handler with the one connected-but-not-yet-read sensor registered. -/
def handlerC3 : SensorHandler :=
  { emptyHandler with sensors := [("uL1", sensorNoValue)] }

/-- C3: the core does let unhandled exceptions escape, contrary to the claim:
`openAll` on an empty fleet evaluates `self.sensors[labels[-1]]` on an empty
label list and raises `IndexError`; the fleet read of a registered non-GPS
label whose background loop has not stored a reading subscripts `None` and
raises `TypeError`; and `processGPS` with zero elapsed time divides by zero
in the velocity computation and raises `ZeroDivisionError`. -/
theorem C3_core_raises :
    openAll [] [] [] = some (.error "IndexError: list index out of range") ∧
    SensorHandler.read dummyO 0 handlerC3 "uL1" 0 none =
      .error "TypeError: NoneType is not subscriptable" ∧
    processGPS dummyO 5 (some [some 1, some 2]) "gL" (some frame1) [] 0
        [("DGLX", 100), ("DGLY", 100)] = .error "ZeroDivisionError" :=
  ⟨by with_unfolding_all rfl, by with_unfolding_all rfl, by with_unfolding_all rfl⟩

/-- The two-fix GPS input stream of the C5 scenario: two parsable GGA
sentences carrying the non-(0,0) fixes (1°, 1°) and (3°, 5°). -/
def c5lines : List GPSLine :=
  [some ("$GPGGA,rest", 1, 1), some ("$GPGGA,rest", 3, 5)]

/-- C5: with the default `numValues = 2`, `getGPSReading` does not return the
mean of both accepted fixes: because `count` is incremented before the write
`values[count, ...]`, row 0 is never filled and the second fix's write raises
a swallowed `IndexError`, so the result equals the first accepted fix
(1, 1) rather than the componentwise mean (2, 3) of the two fixes. -/
theorem C5_gps_offbyone :
    getGPSReading 2 c5lines = [some 1, some 1] ∧
    getGPSReading 2 c5lines ≠ [some ((1 + 3) / 2), some ((1 + 5) / 2)] :=
  ⟨by with_unfolding_all rfl, by with_unfolding_all decide⟩

/-- A connected ultrasonic sensor at `uL1` whose latest reading is 5 mm. -/
def sensorU1 : SerialSensor :=
  { mkSerialSensor "COM1" "uL1" with
      is_connected := true
      hasDevice := true
      hasThread := true
      value := some [some 5] }

/-- A connected ultrasonic sensor at `uR1` whose latest reading is 7 mm. -/
def sensorU2 : SerialSensor :=
  { mkSerialSensor "COM2" "uR1" with
      is_connected := true
      hasDevice := true
      hasThread := true
      value := some [some 7] }

/-- Handler holding both ultrasonic sensors, with the measurements of the
prior full cycle (uL1 ↦ 1, uR1 ↦ 2) already recorded. -/
def handlerC2 : SensorHandler :=
  { emptyHandler with
    sensors := [("uL1", sensorU1), ("uR1", sensorU2)],
    measurements := [("uL1/Distance", some 1), ("uR1/Distance", some 2)] }

/-- C2: the previous-measurements snapshot is *not* captured once per fleet
cycle; `SensorHandler.read` retakes it on every per-label call.  After one
cycle over `[uL1, uR1]` (prior-cycle values 1 and 2, current readings 5 and
7), uL1's "previous" entry equals 5 — the value written for uL1 earlier in
the *same* cycle — and not its prior-cycle value 1. -/
theorem C2_snapshot_retaken_per_label :
    Except.map
        (fun hh => (List.lookup "uL1/Distance" hh.previous_measurements,
          List.lookup "uL1/Distance" hh.measurements))
        (readCycle dummyO 0 handlerC2 ["uL1", "uR1"] 1 none) =
      .ok (some (some 5), some (some 5)) ∧
    List.lookup "uL1/Distance" handlerC2.measurements = some (some 1) :=
  ⟨by with_unfolding_all rfl, by with_unfolding_all rfl⟩

/-- A connected GPS sensor at `gL` with a stored valid fix (1°, 2°). -/
def sensorGL : SerialSensor :=
  { mkSerialSensor "COM5" "gL" with
      is_connected := true
      hasDevice := true
      hasThread := true
      value := some [some 1, some 2] }

/-- Handler with the GPS sensor registered and a projection frame set. -/
def handlerC9 : SensorHandler :=
  { emptyHandler with sensors := [("gL", sensorGL)], GPS_constants := some frame1 }

/-- C9: with the left-side offsets DGLX/DGLY absent from configuration,
`processGPS` does return `None` (first half of the claim), but
`SensorHandler.read` then immediately subscripts that `None` in its field
update loop and raises `TypeError` instead of treating it as a skipped
update. -/
theorem C9_none_not_skipped :
    processGPS dummyO 7 (some [some 1, some 2]) "gL" (some frame1) [] 0 [] = .ok none ∧
    SensorHandler.read dummyO 7 handlerC9 "gL" 0 (some []) =
      .error "TypeError: NoneType is not subscriptable" :=
  ⟨by with_unfolding_all rfl, by with_unfolding_all rfl⟩

/-- A closed, never-opened sensor whose port will fail to open. -/
def cexSensorA : SerialSensor := mkSerialSensor "COM1" "uL1"

/-- A sensor that is already connected when `openAll` is called. -/
def cexSensorB : SerialSensor :=
  { mkSerialSensor "COM2" "uR1" with
      is_connected := true
      hasDevice := true
      hasThread := true }

/-- C1 counterexample: `openAll` is not all-or-nothing on every fleet.  On
the fleet `[cexSensorA, cexSensorB]` whose last connection was already open
before the call, the first connection fails to open (`oks = [false, true]`),
yet `openAll` — which decides success by looking only at the *last*
registered connection — returns overall success instead of failure. -/
theorem C1_counterexample :
    openAll [cexSensorA, cexSensorB] [false, true] [] =
      some (.ok ([cexSensorA, cexSensorB], true)) := by
  with_unfolding_all rfl

/-- C8 counterexample: a GPS-kind connection created through
`SensorHandler.add` gets the constructor's default baud rate 38400, not
9600: `add` never passes a kind-specific baud rate. -/
theorem C8_counterexample :
    Option.map SerialSensor.baudrate
        (List.lookup "gL" (SensorHandler.add emptyHandler "COM3" "gL").sensors) =
      some 38400 ∧
    Option.map SerialSensor.baudrate
        (List.lookup "gL" (SensorHandler.add emptyHandler "COM3" "gL").sensors) ≠
      some 9600 :=
  ⟨by with_unfolding_all rfl, by with_unfolding_all decide⟩

/-- C6 counterexample: the GPS parser's output length is 2 (longitude,
latitude), which does not match the declared GPS variable list of 9 fields
(that list describes the reading only after augmentation by `processGPS`). -/
theorem C6_counterexample :
    (getGPSReading 2 []).length = 2 ∧ (variablesDict 'g').length = 9 ∧ (2 : Nat) ≠ 9 :=
  ⟨by with_unfolding_all rfl, by with_unfolding_all rfl, by decide⟩

/-- C10: establishing the projection frame from a fix and then projecting the
same fix with that frame yields planar (0, 0): inside `processGPS`, both
`gps_x` and `gps_y` multiply the difference of two identical
radian conversions by the frame scale factor, and that difference is zero —
for every oracle, origin time, and fix. -/
theorem C10_origin_maps_to_zero (O : MathOracle) (tNow lon lat : ℚ) :
    gpsX O (setupGPSProjection O tNow (lon, lat)) (some lon) = some 0 ∧
    gpsY O (setupGPSProjection O tNow (lon, lat)) (some lat) = some 0 := by
  constructor <;>
    simp [gpsX, gpsY, setupGPSProjection, mulV, subV, scaleDiv, sub_self, zero_mul]

/-- The multispectral input of the C4 scenario: two valid 8-token samples
with (RedEdge, NIR) = (1, 2) and (2, 2). -/
def c4lines : List TextLine :=
  [some [some 0, some 0, some 0, some 0, some 0, some 1, some 2, some 0],
   some [some 0, some 0, some 0, some 0, some 0, some 2, some 2, some 0]]

/-- The chlorophyll index computed the way the claim states it: from the
averaged NIR and RedEdge fields of the returned reading,
`(mean NIR / mean RedEdge) - 1`. -/
def ciFromAveraged (lines : List TextLine) : Val :=
  subV (divV ((getMultispectralReading lines).getD 7 none)
    ((getMultispectralReading lines).getD 6 none)) (some 1)

/-- C4 counterexample: on two valid samples with per-sample CI 1 and 0, the
parser returns CI = 1/2 (the mean of the per-sample CIs), while the ratio of
the per-field means gives 2/(3/2) - 1 = 1/3 — so the CI field is *not*
computed from the averaged NIR/RedEdge. -/
theorem C4_counterexample :
    (getMultispectralReading c4lines).getD 0 none = some (1 / 2) ∧
    ciFromAveraged c4lines = some (1 / 3) ∧
    (getMultispectralReading c4lines).getD 0 none ≠ ciFromAveraged c4lines :=
  ⟨by with_unfolding_all rfl, by with_unfolding_all rfl, by with_unfolding_all decide⟩

/-- The per-sample chlorophyll index of one line, `(NIR/RedEdge) - 1` from
that line's own tokens (missing for a failed read, a wrong token count, or
unparsable NIR/RedEdge tokens). -/
def lineCI (line : TextLine) : Val :=
  match line with
  | some ts =>
      if ts.length = 8 then subV (divV (ts.getD 6 none) (ts.getD 5 none)) (some 1) else none
  | none => none

/-- The CI entry of a row equals the independent per-sample CI. -/
theorem rowOf_getD_zero (l : TextLine) : (rowOf l).getD 0 none = lineCI l := by
  cases l with
  | none => rfl
  | some ts =>
      by_cases hl : ts.length = 8
      · simp [rowOf, lineCI, hl]
      · simp [rowOf, lineCI, hl]

/-- C4 amended: the returned CI field is the nan-mean of the *per-sample*
chlorophyll indices `(NIR_i / RedEdge_i) - 1`, for every input — the
opposite of the claimed compute-from-averaged policy. -/
theorem C4_ci_is_per_sample_mean (lines : List TextLine) :
    (getMultispectralReading lines).getD 0 none = nanmeanCol (lines.map lineCI) := by
  have hrange : List.range 9 = 0 :: [1, 2, 3, 4, 5, 6, 7, 8] := rfl
  simp only [getMultispectralReading, nanmeanAxis0, hrange, List.map_cons,
    List.getD_cons_zero, List.map_map]
  congr 1
  apply List.map_congr_left
  intro l _
  exact rowOf_getD_zero l

/-- C6 amended: every parser returns a fixed-length vector for every input —
NaN-filled where no valid sample existed — but the lengths are multispectral
9, ultrasonic 1, environmental 6 (each matching its declared variable list)
and GPS 2, the raw longitude/latitude pair, which does not match the
9-field declared GPS list (that list describes the augmented reading). -/
theorem C6_fixed_lengths :
    (∀ lines, (getMultispectralReading lines).length = (variablesDict 'm').length) ∧
    (∀ n stream, (getUltrasonicReading n stream).length = (variablesDict 'u').length) ∧
    (∀ lines, (getEnvironmentalReading lines).length = (variablesDict 'e').length) ∧
    (∀ n lines, (getGPSReading n lines).length = 2) ∧
    getMultispectralReading [none, none] = List.replicate 9 none ∧
    getEnvironmentalReading [none] = List.replicate 6 none ∧
    getUltrasonicReading 2 ['A', '\r'] = [none] := by
  refine ⟨?_, ?_, ?_, ?_, ?_, ?_, ?_⟩
  · intro lines
    simp [getMultispectralReading, nanmeanAxis0, variablesDict]
  · intro n stream
    unfold getUltrasonicReading
    cases ultraLoop n stream (List.replicate n none) (List.replicate 5 '0') 0 0 <;>
      simp [variablesDict]
  · intro lines
    simp [getEnvironmentalReading, nanmeanAxis0, variablesDict]
  · intro n lines
    rfl
  · with_unfolding_all rfl
  · with_unfolding_all rfl
  · with_unfolding_all rfl

/-- Whether a multispectral line outcome is malformed: the read raised, or
the comma-split token count is not 8. -/
def isMalformedLine (l : TextLine) : Bool :=
  match l with
  | none => true
  | some ts => ts.length != 8

/-- A malformed line's row of the values matrix is all-missing. -/
theorem rowOf_malformed (l : TextLine) (h : isMalformedLine l = true) :
    rowOf l = List.replicate 9 none := by
  cases l with
  | none => rfl
  | some ts =>
      simp only [isMalformedLine, bne_iff_ne, ne_eq] at h
      simp [rowOf, h]

/-- Indexing an all-missing replicate row yields missing at every index. -/
theorem getD_replicate_none : ∀ (n j : Nat), (List.replicate n (none : Val)).getD j none = none := by
  intro n
  induction n with
  | zero => intro j; rfl
  | succ m ih =>
      intro j
      cases j with
      | zero => rfl
      | succ i => exact ih i

/-- A missing entry contributes nothing to a column's nan-mean. -/
theorem nanmeanCol_none_cons (xs : List Val) : nanmeanCol (none :: xs) = nanmeanCol xs := by
  simp [nanmeanCol, List.filterMap_cons]

/-- C7 amended: for the multispectral parser one malformed line contributes
only a missing sample and the remaining lines are processed exactly as they
would be without it; the ultrasonic parser, by contrast, aborts the whole
reading when one frame's 5-byte payload is not numeric — its single
`try`/`except` wraps the entire loop — and returns the single-NaN vector
instead of the average of the remaining completed frames. -/
theorem C7_malformed_line_tolerance :
    (∀ (bad : TextLine) (rest : List TextLine), isMalformedLine bad = true →
      getMultispectralReading (bad :: rest) = getMultispectralReading rest) ∧
    getUltrasonicReading 3 ("ABCDE\r00100\r00115\r00120\r".toList) = [none] := by
  constructor
  · intro bad rest h
    simp only [getMultispectralReading, nanmeanAxis0, List.map_cons]
    apply List.map_congr_left
    intro j _
    rw [rowOf_malformed bad h, getD_replicate_none, nanmeanCol_none_cons]
  · set_option maxRecDepth 4000 in with_unfolding_all rfl

/-- C7 counterexample: given the frame stream whose first 5-byte payload
"ABCDE" is not numeric followed by three well-formed frames, the ultrasonic
parser returns the single-NaN vector `[NaN]` instead of still acquiring and
averaging the remaining completed frames — which, on their own, average to
`0.00875 × (mean − 15.3)` = 20237/24000 mm. -/
theorem C7_counterexample :
    getUltrasonicReading 3 ("ABCDE\r00100\r00115\r00120\r".toList) = [none] ∧
    getUltrasonicReading 3 ("00100\r00115\r00120\r".toList) = [some (20237 / 24000)] ∧
    ([(none : Val)] : List Val) ≠ [some (20237 / 24000)] := by
  refine ⟨?_, ?_, by simp⟩
  · set_option maxRecDepth 4000 in with_unfolding_all rfl
  · set_option maxRecDepth 4000 in with_unfolding_all rfl

/-- C7 witness: the malformed-line tolerance theorem applied to an empty
(0-token) line prepended to the concrete two-sample input. -/
theorem C7_witness :
    getMultispectralReading (some [] :: c4lines) = getMultispectralReading c4lines :=
  C7_malformed_line_tolerance.1 (some []) c4lines (by decide)

/-- Looking up a key right after the dict assignment finds the new sensor. -/
theorem lookup_setSensorKey (m : List (String × SerialSensor)) (k : String) (v : SerialSensor) :
    List.lookup k (setSensorKey m k v) = some v := by
  induction m with
  | nil => simp [setSensorKey, List.lookup]
  | cons p rest ih =>
      rcases p with ⟨pk, pv⟩
      by_cases hp : pk = k
      · subst hp
        simp [setSensorKey, List.lookup]
      · have hbeq : (k == pk) = false := by
          simp only [beq_eq_false_iff_ne, ne_eq]
          exact fun hk => hp hk.symm
        simp [setSensorKey, hp, List.lookup, hbeq, ih]

/-- C8 amended: every connection created through the fleet's `add` — GPS
included — is given the constructor's default baud rate 38400, and `open()`
acquires the serial resource with exactly (port, 38400, timeout 1 s); no
kind-specific 9600 rate exists in the code. -/
theorem C8_add_uses_default_baud (h : SensorHandler) (port label : String) :
    ∃ s, List.lookup label (h.add port label).sensors = some s ∧
      s.baudrate = 38400 ∧ openSerialArgs s = (port, 38400, 1) := by
  refine ⟨mkSerialSensor port label, ?_, rfl, rfl⟩
  simp only [SensorHandler.add]
  exact lookup_setSensorKey h.sensors label (mkSerialSensor port label)

instance (s : SerialSensor) : Decidable (ClosedState s) := by
  unfold ClosedState
  infer_instance

/-- Reading the head default equals indexing at 0. -/
theorem headD_eq_getD_zero (l : List Bool) : l.getD 0 false = l.headD false := by
  cases l <;> rfl

/-- Indexing the tail shifts the index by one. -/
theorem tail_getD (l : List Bool) (k : Nat) : l.tail.getD k false = l.getD (k + 1) false := by
  cases l <;> rfl

/-- The last element (with any default) of a fleet of closed sensors is not
connected, provided the default itself is not connected. -/
theorem getLastD_all_closed :
    ∀ (l : List SerialSensor) (d : SerialSensor), (∀ s ∈ l, ClosedState s) →
      d.is_connected = false → (l.getLastD d).is_connected = false := by
  intro l
  induction l with
  | nil => intro d _ hd; exact hd
  | cons a t ih =>
      intro d h _
      have ha : ClosedState a := h a (List.mem_cons_self a t)
      have ht : ∀ s ∈ t, ClosedState s := fun s hs => h s (List.mem_cons_of_mem a hs)
      rw [List.getLastD_cons]
      exact ih a ht ha.1

/-- Characterization of the `openAll` loop on a fleet of initially-closed
sensors when some acquisition fails and every GPS-kind connection opens and
obtains a first fix (so no `setupGPS` call diverges): the loop terminates
and breaks at the first failing index, rolling back the prefix leaves every
sensor Closed, and the last sensor ends up disconnected (so `openAll` takes
its failure branch). -/
theorem openLoopAux_closed_break :
    ∀ (fleet : List SerialSensor) (oks fixes : List Bool),
      (∀ s ∈ fleet, ClosedState s) →
      gpsOkay fleet oks fixes = true →
      (∃ k, k < fleet.length ∧ oks.getD k false = false) →
      ∃ fleet2 k, openLoopAux fleet oks fixes = some (fleet2, some k) ∧
        fleet2.length = fleet.length ∧ k < fleet2.length ∧
        (∀ s ∈ closeUpTo fleet2 k, ClosedState s) ∧
        (∀ d, (fleet2.getLastD d).is_connected = false) := by
  intro fleet
  induction fleet with
  | nil =>
      intro oks fixes _ _ hf
      rcases hf with ⟨k, hk, _⟩
      exact absurd hk (by simp)
  | cons a t ih =>
      intro oks fixes hC hG hf
      have ha : ClosedState a := hC a (List.mem_cons_self a t)
      have ht : ∀ s ∈ t, ClosedState s := fun s hs => hC s (List.mem_cons_of_mem a hs)
      rw [gpsOkay, Bool.and_eq_true] at hG
      rcases hG with ⟨hGhead, hGtail⟩
      by_cases hok : oks.headD false = true
      · rcases hf with ⟨k, hk, hdk⟩
        cases k with
        | zero =>
            rw [headD_eq_getD_zero] at hdk
            rw [hok] at hdk
            exact absurd hdk (by simp)
        | succ k1 =>
            have hf2 : ∃ k2, k2 < t.length ∧ oks.tail.getD k2 false = false := by
              refine ⟨k1, ?_, ?_⟩
              · simpa using Nat.lt_of_succ_lt_succ (by simpa using hk)
              · rw [tail_getD]; exact hdk
            rcases ih oks.tail fixes.tail ht hGtail hf2 with
              ⟨rest2, k2, heq, hlen, hklt, hclosed, hlast⟩
            have hstep : a.openStep (oks.headD false) =
                ({ a with is_connected := true, hasDevice := true, hasThread := true }, some true) := by
              unfold SerialSensor.openStep
              rw [ha.1, hok]
              simp
            have hcond : ¬(labelKind a.label = 'g' ∧ fixes.headD false = false) := by
              rintro ⟨hg, hfx⟩
              have hbeq : (labelKind a.label == 'g') = true := beq_iff_eq.mpr hg
              rw [hbeq, hok] at hGhead
              simp only [Bool.not_true, Bool.true_and, Bool.false_or] at hGhead
              rw [hGhead] at hfx
              exact absurd hfx (by simp)
            refine ⟨{ a with is_connected := true, hasDevice := true, hasThread := true } :: rest2,
              k2 + 1, ?_, by simp [hlen], by simpa using Nat.succ_lt_succ hklt, ?_, ?_⟩
            · simp only [openLoopAux, hstep]
              rw [if_neg hcond]
              simp only [heq]
            · intro s hs
              rw [show closeUpTo
                    ({ a with is_connected := true, hasDevice := true, hasThread := true } :: rest2)
                    (k2 + 1) =
                  SerialSensor.close
                    { a with is_connected := true, hasDevice := true, hasThread := true } ::
                    closeUpTo rest2 k2 from rfl] at hs
              rcases List.mem_cons.mp hs with h1 | h1
              · rw [h1]
                simp [SerialSensor.close, ClosedState]
              · exact hclosed s h1
            · intro d
              rw [List.getLastD_cons]
              exact hlast _
      · have hok2 : oks.headD false = false := by
          cases hv : oks.headD false
          · rfl
          · exact absurd hv hok
        have hng : ¬(labelKind a.label = 'g') := by
          intro hg
          have hbeq : (labelKind a.label == 'g') = true := beq_iff_eq.mpr hg
          rw [hbeq, hok2] at hGhead
          simp at hGhead
        have hstep : a.openStep (oks.headD false) =
            ({ a with hasDevice := false, hasThread := false }, some false) := by
          unfold SerialSensor.openStep
          rw [ha.1, hok2]
          simp
        refine ⟨{ a with hasDevice := false, hasThread := false } :: t, 0, ?_, rfl, by simp, ?_, ?_⟩
        · simp only [openLoopAux, hstep]
          rw [if_neg hng]
        · intro s hs
          rcases List.mem_cons.mp hs with h1 | h1
          · rw [h1]
            exact ⟨ha.1, rfl, rfl⟩
          · exact ht s h1
        · intro d
          rw [List.getLastD_cons]
          exact getLastD_all_closed t _ ht ha.1

/-- C1 amended: on every fleet of registered connections that are all in the
Closed state when `openAll` is called, and in which every GPS-kind
connection would open successfully and obtain a clean first fix, if
acquiring any connection's port fails then `openAll` returns overall failure
and every connection of the fleet ends in the Closed state: connected flag
false, serial handle and reader null, the opened prefix having been rolled
back.  Both restrictions are forced by the source: with a connection — in
particular the last one — already open, `openAll` can return success despite
a failure (the counterexample); and when a GPS-kind connection fails to open
(or never delivers a fix), the `setupGPS` first-fix loop spins forever and
`openAll` never returns at all, so neither failure nor rollback happens. -/
theorem C1_rollback_when_initially_closed (fleet : List SerialSensor) (oks fixes : List Bool)
    (hC : ∀ s ∈ fleet, ClosedState s)
    (hG : gpsOkay fleet oks fixes = true)
    (hf : ∃ k, k < fleet.length ∧ oks.getD k false = false) :
    ∃ fleet2, openAll fleet oks fixes = some (.ok (fleet2, false)) ∧
      ∀ s ∈ fleet2, ClosedState s := by
  rcases openLoopAux_closed_break fleet oks fixes hC hG hf with
    ⟨f2, k, heq, hlen, hklt, hclosed, hlast⟩
  rcases fleet with _ | ⟨a, t⟩
  · rcases hf with ⟨k0, hk0, _⟩
    exact absurd hk0 (by simp)
  · refine ⟨closeUpTo f2 k, ?_, hclosed⟩
    simp [openAll, heq, hlast (mkSerialSensor "" "")]
    rw [← List.getLastD_eq_getLast?]
    exact hlast _

/-- The three-connection fleet of the C1 scenario, all initially Closed and
none of GPS kind. -/
def witnessFleet : List SerialSensor :=
  [mkSerialSensor "COM1" "uL1", mkSerialSensor "COM2" "uL2", mkSerialSensor "COM3" "uL3"]

/-- C1 witness: on the fleet of 3 closed connections whose 2nd port fails to
open, `openAll` returns false and all 3 connections end Closed. -/
theorem C1_witness :
    ∃ fleet2, openAll witnessFleet [true, false, true] [] = some (.ok (fleet2, false)) ∧
      ∀ s ∈ fleet2, ClosedState s :=
  C1_rollback_when_initially_closed witnessFleet [true, false, true] [] (by decide) (by decide)
    ⟨1, by decide⟩
